import Mathlib

/-!
Verification of the client-side session/auth-state manager of the admin
dashboard: the reducer-based Session Store (`authReducer` in
`contexts/AuthContext.tsx`), the storage-backed Session Initializer
(`initializeAuth`), the Credential Refresher and visibility-triggered
validator (`hooks/useAuthManager.ts` together with the shared axios
client's 401 interceptor in `services/api.ts`), and the cross-tab
invalidation listener (`handleStorageChange`).

Modelling conventions:
- JavaScript values that flow through `JSON.parse` / `JSON.stringify`
  are modelled by the inductive type `Json`; JS truthiness is
  `Json.truthy` (null, false, 0 and the empty string are falsy).
- `JSON.parse` is a platform primitive, so it is a parameter
  `parse : String → Except Unit Json` of the initializer; a thrown
  exception is `Except.error ()`.
- `localStorage` / `sessionStorage` are association lists from string
  keys to raw string values (`Store`).
- React's `dispatch` is the pure reducer `authReducer`; each event
  handler is modelled as the function from the pre-state (and the
  outcome of its one network call, where it makes one) to the
  post-state, together with the storage writes it performs.
-/

/-- The admin profile record (`AdminUser` in `types`); the session code never
inspects its fields, it only stores and compares it. -/
structure AdminUser where
  id : Nat
  username : String
  email : String
  role : String
deriving DecidableEq

/-- Values produced by `JSON.parse`: the TypeScript code annotates them as
`string` (token) or `AdminUser` (user), but at runtime any JSON value can
come out of storage, so the model keeps full `Json`. -/
inductive Json where
  | jnull : Json
  | jbool : Bool → Json
  | jnum : Int → Json
  | jstr : String → Json
  | jobj : AdminUser → Json
deriving DecidableEq

/-- JavaScript truthiness of a JSON value (used by `if (token && user)` and
`if (!auth.token)` in the source). -/
def Json.truthy : Json → Bool
  | .jnull => false
  | .jbool b => b
  | .jnum n => n != 0
  | .jstr s => s != ""
  | .jobj _ => true

/-- `JSON.stringify` on the modelled values (string escaping elided; the
session code only ever compares stringified values for equality). -/
def Json.stringify : Json → String
  | .jnull => "null"
  | .jbool b => if b then "true" else "false"
  | .jnum n => toString n
  | .jstr s => "\"" ++ s ++ "\""
  | .jobj u =>
      "\x7b\"id\":" ++ toString u.id ++ ",\"username\":\"" ++ u.username ++
        "\",\"email\":\"" ++ u.email ++ "\",\"role\":\"" ++ u.role ++ "\"\x7d"

/-- Truthiness of a nullable JS value (`null` is falsy). -/
def jsTruthy : Option Json → Bool
  | none => false
  | some j => j.truthy

/-- The session state held by the reducer (`AuthState & \x7b error \x7d` in
`AuthContext.tsx`): `user`/`token` are nullable, plus the `isAuthenticated`,
`loading` and `error` fields. -/
structure AuthState where
  user : Option Json
  token : Option Json
  isAuthenticated : Bool
  loading : Bool
  error : Option String
deriving DecidableEq

/-- `initialState` of `AuthContext.tsx`: everything empty, `loading = true`. -/
def initialState : AuthState :=
  { user := none, token := none, isAuthenticated := false, loading := true,
    error := none }

/-- The closed action set of the reducer (`AuthAction` in `AuthContext.tsx`). -/
inductive AuthAction where
  | LOGIN_START : AuthAction
  | LOGIN_SUCCESS : Json → Json → AuthAction
  | LOGIN_FAILURE : String → AuthAction
  | LOGOUT : AuthAction
  | SET_USER : Json → AuthAction
  | SET_LOADING : Bool → AuthAction
deriving DecidableEq

/-- `authReducer` of `AuthContext.tsx`, case for case. -/
def authReducer (state : AuthState) (action : AuthAction) : AuthState :=
  match action with
  | .LOGIN_START =>
      { state with loading := true, error := none }
  | .LOGIN_SUCCESS u t =>
      { state with
          user := some u, token := some t, isAuthenticated := true,
          loading := false, error := none }
  | .LOGIN_FAILURE msg =>
      { state with
          user := none, token := none, isAuthenticated := false,
          loading := false, error := some msg }
  | .LOGOUT =>
      { state with
          user := none, token := none, isAuthenticated := false,
          loading := false, error := none }
  | .SET_USER u =>
      { state with user := some u, isAuthenticated := true, loading := false }
  | .SET_LOADING b =>
      { state with loading := b }

/-- A sequence of dispatched actions applied to the initial state. -/
def applyActions (acts : List AuthAction) : AuthState :=
  acts.foldl authReducer initialState

/-- A browser key-value storage (`localStorage` / `sessionStorage`). -/
abbrev Store := List (String × String)

/-- `storage.getItem(k)`. -/
def storeGet (s : Store) (k : String) : Option String :=
  (s.find? (fun p => p.1 == k)).map (fun p => p.2)

/-- `storage.setItem(k, v)`. -/
def storeSet (s : Store) (k v : String) : Store :=
  (k, v) :: s.filter (fun p => p.1 != k)

/-- `storage.removeItem(k)`. -/
def storeRemove (s : Store) (k : String) : Store :=
  s.filter (fun p => p.1 != k)

/-- The "remember me" preference: `localStorage.getItem('admin_remember_me')
=== 'true'`, read from the persistent store only. -/
def rememberFlag (ls : Store) : Bool :=
  storeGet ls "admin_remember_me" == some "true"

/-- `const storage = remember ? localStorage : sessionStorage`. -/
def selectedStore (ls ss : Store) : Store :=
  if rememberFlag ls then ls else ss

/-- The `logout` function of `AuthContext.tsx`: removes the credential and
identity keys from both storages and dispatches `LOGOUT`. (The fire-and-forget
backend logout call has no effect on local state and is elided.) -/
def logoutEffect (st : AuthState) (ls ss : Store) : AuthState × Store × Store :=
  (authReducer st AuthAction.LOGOUT,
   storeRemove (storeRemove ls "admin_token") "admin_user",
   storeRemove (storeRemove ss "admin_token") "admin_user")

/-- The action dispatched by `initializeAuth` in `AuthContext.tsx`: read the
remember preference from `localStorage`, read `admin_token` / `admin_user`
from the selected storage only, `JSON.parse` the token first and then the
user (a parse exception lands in the catch, which dispatches
`SET_LOADING false`), and dispatch `LOGIN_SUCCESS` exactly when both parsed
values are truthy. -/
def initializeAuthAction (parse : String → Except Unit Json) (ls ss : Store) :
    AuthAction :=
  match storeGet (selectedStore ls ss) "admin_token" with
  | none =>
      match storeGet (selectedStore ls ss) "admin_user" with
      | none => .SET_LOADING false
      | some uraw =>
          match parse uraw with
          | .error _ => .SET_LOADING false
          | .ok _ => .SET_LOADING false
  | some traw =>
      match parse traw with
      | .error _ => .SET_LOADING false
      | .ok t =>
          match storeGet (selectedStore ls ss) "admin_user" with
          | none => .SET_LOADING false
          | some uraw =>
              match parse uraw with
              | .error _ => .SET_LOADING false
              | .ok u =>
                  if t.truthy && u.truthy then .LOGIN_SUCCESS u t
                  else .SET_LOADING false

/-- The session state produced by running the Initializer on the initial
state. -/
def initializeAuth (parse : String → Except Unit Json) (ls ss : Store) :
    AuthState :=
  authReducer initialState (initializeAuthAction parse ls ss)

/-- The `login` success path of `AuthContext.tsx`: write the pair into the
storage selected by the remember preference, remove both keys from the other
storage, dispatch `LOGIN_SUCCESS`. -/
def loginSuccessEffect (st : AuthState) (u t : Json) (ls ss : Store) :
    AuthState × Store × Store :=
  if rememberFlag ls then
    (authReducer st (AuthAction.LOGIN_SUCCESS u t),
     storeSet (storeSet ls "admin_token" (Json.stringify t)) "admin_user"
       (Json.stringify u),
     storeRemove (storeRemove ss "admin_token") "admin_user")
  else
    (authReducer st (AuthAction.LOGIN_SUCCESS u t),
     storeRemove (storeRemove ls "admin_token") "admin_user",
     storeSet (storeSet ss "admin_token" (Json.stringify t)) "admin_user"
       (Json.stringify u))

/-- Outcome of one scheduled refresh call (`authService.refreshToken()`):
a success response carrying a renewed token, a non-success or data-less
response, or a thrown error. -/
inductive RefreshOutcome where
  | success : Json → RefreshOutcome
  | failure : RefreshOutcome
  | thrown : RefreshOutcome
deriving DecidableEq

/-- `refreshToken` of `useAuthManager.ts`: returns false when the current
token is falsy; on a success response writes the renewed token to
`localStorage` (always `localStorage` — the code does not consult the
remember preference here) and returns true; on any non-success response or
thrown error returns false. Result: the returned boolean and the updated
`localStorage`. -/
def refreshToken (st : AuthState) (o : RefreshOutcome) (ls : Store) :
    Bool × Store :=
  if jsTruthy st.token then
    match o with
    | .success t => (true, storeSet ls "admin_token" (Json.stringify t))
    | .failure => (false, ls)
    | .thrown => (false, ls)
  else (false, ls)

/-- `handleTokenExpiration` of `useAuthManager.ts`: run `refreshToken`; when
it did not succeed, call the context `logout` (which clears both storages and
dispatches `LOGOUT`). -/
def handleTokenExpiration (st : AuthState) (o : RefreshOutcome)
    (ls ss : Store) : AuthState × Store × Store :=
  match refreshToken st o ls with
  | (true, ls2) => (st, ls2, ss)
  | (false, ls2) => logoutEffect st ls2 ss

/-- Outcome of one `authService.me()` validation call: a success response
carrying the identity payload, an HTTP error response with its status, or a
network error with no response. -/
inductive MeOutcome where
  | ok : Json → MeOutcome
  | httpError : Nat → MeOutcome
  | networkError : MeOutcome
deriving DecidableEq

/-- A validation call that did not succeed: non-2xx response, network error,
or a success response whose data is falsy (`response.ok && response.data`
fails). -/
def MeOutcome.failed : MeOutcome → Bool
  | .ok u => !u.truthy
  | .httpError _ => true
  | .networkError => true

/-- `validateSession` of `useAuthManager.ts`, composed with the shared axios
client's response interceptor (`services/api.ts`): a falsy token returns
early; a success response with truthy data dispatches `SET_USER` when the
stringified payload differs from the stringified current user; a 401 response
makes the interceptor clear storage and broadcast `auth:logout`, whose
listener calls `logout`, so the session state takes the `LOGOUT` transition;
every other failure only makes `validateSession` return false. Storage writes
(`setToStorage` on the changed-identity path, the interceptor's key removal)
do not touch the session state and are elided here. -/
def validateSessionStep (st : AuthState) (o : MeOutcome) : AuthState :=
  if jsTruthy st.token then
    match o with
    | .ok u =>
        if u.truthy then
          if Json.stringify ((st.user).getD Json.jnull) == Json.stringify u
          then st
          else authReducer st (AuthAction.SET_USER u)
        else st
    | .httpError status =>
        if status == 401 then authReducer st AuthAction.LOGOUT else st
    | .networkError => st
  else st

/-- `handleVisibilityChange` of `useAuthManager.ts`: when the document became
visible and the session is authenticated, run `validateSession`. -/
def handleVisibilityChange (visible : Bool) (st : AuthState) (o : MeOutcome) :
    AuthState :=
  if visible && st.isAuthenticated then validateSessionStep st o else st

/-- `handleStorageChange` of `useAuthManager.ts`: a storage event whose key is
`admin_token` and whose new value is `null` triggers the context `logout`. -/
def handleStorageChange (st : AuthState) (key : String)
    (newValue : Option String) (ls ss : Store) : AuthState × Store × Store :=
  if key == "admin_token" && newValue == none then logoutEffect st ls ss
  else (st, ls, ss)

/-- `clearError` of `AuthContext.tsx`: dispatches
`LOGIN_FAILURE` with the empty message and performs no storage I/O. -/
def clearErrorStep (st : AuthState) (ls ss : Store) :
    AuthState × Store × Store :=
  (authReducer st (AuthAction.LOGIN_FAILURE ""), ls, ss)

/-- The invariant the reducer actually maintains (see the amended C1). -/
def authInvariant (s : AuthState) : Prop :=
  (s.isAuthenticated = true ↔ s.user ≠ none) ∧
    (s.token ≠ none → s.isAuthenticated = true)

/- Concrete fixtures used by counterexamples and witnesses. -/

/-- A concrete admin profile. -/
def admin1 : AdminUser :=
  { id := 1, username := "admin", email := "admin@example.com",
    role := "super_admin" }

/-- A concrete authenticated session state. -/
def stAuth : AuthState :=
  { user := some (Json.jobj admin1), token := some (Json.jstr "tok123"),
    isAuthenticated := true, loading := false, error := none }

/-- A parse function on which every input is malformed. -/
def parseFail : String → Except Unit Json := fun _ => Except.error ()

/-- A concrete parse function: "T" is a valid token string, "U" a valid
identity object, everything else malformed. -/
def parseTable : String → Except Unit Json := fun s =>
  if s == "T" then Except.ok (Json.jstr "tok123")
  else if s == "U" then Except.ok (Json.jobj admin1)
  else Except.error ()

/-- Persistent store holding remember-me and a valid credential+identity
pair. -/
def lsRemember : Store :=
  [("admin_remember_me", "true"), ("admin_token", "T"), ("admin_user", "U")]

/-- Persistent store holding remember-me and a malformed credential. -/
def lsBadToken : Store :=
  [("admin_remember_me", "true"), ("admin_token", "nonsense")]

/-- Tab-scoped store holding a (stringified) old credential. -/
def ssOld : Store := [("admin_token", "\"oldtok\"")]

/- ------------------------------------------------------------------ -/
/- Theorems -/
/- ------------------------------------------------------------------ -/

/-- Helper: the reducer preserves `authInvariant`. -/
lemma authInvariant_step (s : AuthState) (a : AuthAction)
    (h : authInvariant s) : authInvariant (authReducer s a) := by
  obtain ⟨h1, h2⟩ := h
  cases a <;> simp_all [authReducer, authInvariant]

/-- Helper: the invariant holds after any action sequence from an invariant
state. -/
lemma authInvariant_foldl (acts : List AuthAction) (s : AuthState)
    (h : authInvariant s) : authInvariant (acts.foldl authReducer s) := by
  induction acts generalizing s with
  | nil => exact h
  | cons a rest ih => exact ih _ (authInvariant_step s a h)

/-- Claim C1 counterexample: after the single action sequence
`[SET_USER admin1]` from the initial state, `isAuthenticated` is true while
`token` is null, so "authenticated iff both identity and credential are
non-null" fails. -/
theorem auth_invariant_counterexample :
    ¬ (((applyActions [AuthAction.SET_USER (Json.jobj admin1)]).isAuthenticated
          = true) ↔
        ((applyActions [AuthAction.SET_USER (Json.jobj admin1)]).user ≠ none ∧
         (applyActions [AuthAction.SET_USER (Json.jobj admin1)]).token ≠ none))
    := by decide

/-- Claim C1 (amended): for every sequence of reducer actions applied to the
initial session state, `isAuthenticated` is true iff the identity is
non-null, and a non-null credential implies `isAuthenticated`; the converse
credential direction fails because `SET_USER` sets `isAuthenticated` without
installing a credential. -/
theorem auth_invariant_amended (acts : List AuthAction) :
    ((applyActions acts).isAuthenticated = true ↔
      (applyActions acts).user ≠ none) ∧
    ((applyActions acts).token ≠ none →
      (applyActions acts).isAuthenticated = true) :=
  authInvariant_foldl acts initialState
    (by simp [authInvariant, initialState])

/-- Claim C2 counterexample: applying `SET_USER` to the initial state flips
`isAuthenticated` from false to true, so `SET_USER` does not leave the
authenticated flag untouched. -/
theorem set_user_frame_counterexample :
    (authReducer initialState
        (AuthAction.SET_USER (Json.jobj admin1))).isAuthenticated ≠
      initialState.isAuthenticated := by decide

/-- Claim C2 (amended): `SET_USER` replaces the identity, sets
`isAuthenticated := true` and `loading := false`, and leaves exactly the
token and the error unchanged. -/
theorem set_user_frame_amended (st : AuthState) (u : Json) :
    authReducer st (AuthAction.SET_USER u) =
      { st with user := some u, isAuthenticated := true, loading := false } :=
  rfl

/-- Claim C3: `LOGOUT` is idempotent, and its result has identity and
credential cleared, `isAuthenticated = false`, `loading = false` and no
error. -/
theorem logout_idempotent (st : AuthState) :
    authReducer (authReducer st AuthAction.LOGOUT) AuthAction.LOGOUT =
        authReducer st AuthAction.LOGOUT ∧
      authReducer st AuthAction.LOGOUT =
        { user := none, token := none, isAuthenticated := false,
          loading := false, error := none } :=
  ⟨rfl, rfl⟩

/-- Claim C4: if the value under the credential key of the selected storage
is present but malformed (its parse throws), the Initializer dispatches
`SET_LOADING false` via its catch handler and yields the logged-out,
non-loading session state; it never throws (`initializeAuth` is total). -/
theorem initialize_malformed_token (parse : String → Except Unit Json)
    (ls ss : Store) (raw : String)
    (hRaw : storeGet (selectedStore ls ss) "admin_token" = some raw)
    (hBad : parse raw = Except.error ()) :
    initializeAuth parse ls ss =
      { user := none, token := none, isAuthenticated := false,
        loading := false, error := none } := by
  simp [initializeAuth, initializeAuthAction, hRaw, hBad, authReducer,
    initialState]

/-- Witness for C4: a concrete persistent store with remember-me set and a
malformed credential yields the logged-out, non-loading state. -/
theorem initialize_malformed_token_witness :
    storeGet (selectedStore lsBadToken []) "admin_token" = some "nonsense" ∧
    initializeAuth parseFail lsBadToken [] =
      { user := none, token := none, isAuthenticated := false,
        loading := false, error := none } :=
  ⟨rfl, initialize_malformed_token parseFail lsBadToken [] "nonsense" rfl rfl⟩

/-- Claim C5: the Initializer reads the credential and identity only from
the store selected by the persisted remember-me preference: with remember-me
true the result is independent of the tab-scoped store, with remember-me
false it is independent of the persistent store's credential/identity keys
(only the remember key of the persistent store is consulted); and with
remember-me true and a valid (truthy-parsing) credential+identity pair in
the persistent store, the session is authenticated with exactly that pair. -/
theorem initialize_selected_store_only (parse : String → Except Unit Json)
    (ls ls2 ss ss2 : Store) :
    (rememberFlag ls = true →
      initializeAuth parse ls ss = initializeAuth parse ls ss2) ∧
    (rememberFlag ls = false → rememberFlag ls2 = false →
      initializeAuth parse ls ss = initializeAuth parse ls2 ss) ∧
    (rememberFlag ls = true →
      ∀ rawT rawU t u,
        storeGet ls "admin_token" = some rawT →
        storeGet ls "admin_user" = some rawU →
        parse rawT = Except.ok t →
        parse rawU = Except.ok u →
        Json.truthy t = true →
        Json.truthy u = true →
        initializeAuth parse ls ss =
          { user := some u, token := some t, isAuthenticated := true,
            loading := false, error := none }) := by
  refine ⟨?_, ?_, ?_⟩
  · intro h
    simp [initializeAuth, initializeAuthAction, selectedStore, h]
  · intro h1 h2
    simp [initializeAuth, initializeAuthAction, selectedStore, h1, h2]
  · intro h rawT rawU t u hT hU hpT hpU htT htU
    simp [initializeAuth, initializeAuthAction, selectedStore, h, hT, hU,
      hpT, hpU, htT, htU, authReducer, initialState]

/-- Witness for C5: with remember-me set and a valid pair in the persistent
store, the result ignores the tab-scoped store's stale credential and is
authenticated with exactly the persisted pair. -/
theorem initialize_selected_store_only_witness :
    initializeAuth parseTable lsRemember ssOld =
        initializeAuth parseTable lsRemember [] ∧
      initializeAuth parseTable lsRemember ssOld =
        { user := some (Json.jobj admin1), token := some (Json.jstr "tok123"),
          isAuthenticated := true, loading := false, error := none } :=
  ⟨(initialize_selected_store_only parseTable lsRemember lsRemember ssOld
      []).1 rfl,
   (initialize_selected_store_only parseTable lsRemember lsRemember ssOld
      []).2.2 rfl "T" "U" (Json.jstr "tok123") (Json.jobj admin1)
      rfl rfl rfl rfl rfl rfl⟩

/-- Claim C6: every scheduled refresh attempt that does not succeed — a
non-success or data-less response (`failure`) or a thrown network error
(`thrown`) — makes `handleTokenExpiration` invoke `logout` unconditionally,
and the settled session state has `isAuthenticated = false`. -/
theorem refresh_failure_logs_out (st : AuthState) (o : RefreshOutcome)
    (ls ss : Store)
    (h : o = RefreshOutcome.failure ∨ o = RefreshOutcome.thrown) :
    handleTokenExpiration st o ls ss = logoutEffect st ls ss ∧
      (handleTokenExpiration st o ls ss).1.isAuthenticated = false := by
  have hr : refreshToken st o ls = (false, ls) := by
    rcases h with h | h <;> subst h <;> unfold refreshToken <;> split <;> rfl
  constructor
  · simp [handleTokenExpiration, hr]
  · simp [handleTokenExpiration, hr, logoutEffect, authReducer]

/-- Witness for C6: a concrete failed refresh from an authenticated state
invokes logout and leaves the session unauthenticated. -/
theorem refresh_failure_logs_out_witness :
    handleTokenExpiration stAuth RefreshOutcome.failure [] [] =
        logoutEffect stAuth [] [] ∧
      (handleTokenExpiration stAuth RefreshOutcome.failure
          [] []).1.isAuthenticated = false :=
  refresh_failure_logs_out stAuth RefreshOutcome.failure [] [] (Or.inl rfl)

/-- Claim C7 counterexample: with remember-me unset the session's selected
scope is the tab-scoped store, yet after a successful scheduled refresh the
renewed credential is absent from the tab-scoped store (which still holds
the old credential) and present in the persistent store — the refresher
writes `localStorage` unconditionally. -/
theorem refresh_success_storage_counterexample :
    rememberFlag [] = false ∧
    storeGet (handleTokenExpiration stAuth
        (RefreshOutcome.success (Json.jstr "newtok")) [] ssOld).2.2
        "admin_token" ≠ some (Json.stringify (Json.jstr "newtok")) ∧
    storeGet (handleTokenExpiration stAuth
        (RefreshOutcome.success (Json.jstr "newtok")) [] ssOld).2.1
        "admin_token" = some (Json.stringify (Json.jstr "newtok")) := by
  decide

/-- Claim C7 (amended): on a successful scheduled refresh while authenticated
with a truthy credential, the renewed credential is written under the
credential key of the persistent store (`localStorage`) regardless of the
selected remember-me scope; the session state — identity included — is not
modified, so the session remains authenticated, and the tab-scoped store is
untouched. -/
theorem refresh_success_storage_amended (st : AuthState) (t : Json)
    (ls ss : Store) (hA : st.isAuthenticated = true)
    (hT : jsTruthy st.token = true) :
    handleTokenExpiration st (RefreshOutcome.success t) ls ss =
      (st, storeSet ls "admin_token" (Json.stringify t), ss) := by
  simp [handleTokenExpiration, refreshToken, hT]

/-- Witness for C7 (amended): a concrete successful refresh writes the new
credential to the persistent store and leaves the session state unchanged. -/
theorem refresh_success_storage_amended_witness :
    handleTokenExpiration stAuth (RefreshOutcome.success (Json.jstr "newtok"))
        [] [] =
      (stAuth, storeSet [] "admin_token"
        (Json.stringify (Json.jstr "newtok")), []) :=
  refresh_success_storage_amended stAuth (Json.jstr "newtok") [] [] rfl rfl

/-- Claim C8 counterexample: a visibility-triggered validation call that
fails with an HTTP 401 response does cause a logout — the shared API
client's interceptor broadcasts `auth:logout` and the listener dispatches
`logout` — so the session does not keep `isAuthenticated = true`. -/
theorem visibility_failure_counterexample :
    stAuth.isAuthenticated = true ∧
    MeOutcome.failed (MeOutcome.httpError 401) = true ∧
    (handleVisibilityChange true stAuth
        (MeOutcome.httpError 401)).isAuthenticated = false := by
  decide

/-- Claim C8 (amended): a failed visibility-triggered validation call whose
failure is not an HTTP 401 response (network error, non-401 status, or a
success response with falsy data) never causes a logout by itself: the
session keeps `isAuthenticated = true`; a 401 failure, however, logs the
session out through the API client's interceptor broadcast. -/
theorem visibility_failure_amended (st : AuthState) (o : MeOutcome)
    (hA : st.isAuthenticated = true) (hf : MeOutcome.failed o = true)
    (h401 : o ≠ MeOutcome.httpError 401) :
    (handleVisibilityChange true st o).isAuthenticated = true := by
  unfold handleVisibilityChange
  rw [hA]
  simp only [Bool.and_true, if_true]
  unfold validateSessionStep
  by_cases hT : jsTruthy st.token
  · rw [if_pos hT]
    cases o with
    | ok u =>
        simp only [MeOutcome.failed, Bool.not_eq_true'] at hf
        simp [hf, hA]
    | httpError s =>
        have hs : (s == 401) = false := by
          apply beq_eq_false_iff_ne.mpr
          intro hsEq
          exact h401 (by rw [hsEq])
        simp [hs, hA]
    | networkError => exact hA
  · rw [if_neg hT]
    exact hA

/-- Witness for C8 (amended): a concrete network-error failure of the
visibility check leaves the authenticated session authenticated. -/
theorem visibility_failure_amended_witness :
    (handleVisibilityChange true stAuth
        MeOutcome.networkError).isAuthenticated = true :=
  visibility_failure_amended stAuth MeOutcome.networkError rfl rfl
    (by decide)

/-- Claim C9: a storage event whose key is the credential key and whose new
value is null, handled while the session is authenticated, dispatches
`logout` locally (the handler step equals the logout effect), so the handled
state has `isAuthenticated = false`. -/
theorem storage_deletion_logout (st : AuthState) (ls ss : Store)
    (hA : st.isAuthenticated = true) :
    handleStorageChange st "admin_token" none ls ss = logoutEffect st ls ss ∧
      (handleStorageChange st "admin_token" none ls
          ss).1.isAuthenticated = false :=
  ⟨rfl, rfl⟩

/-- Witness for C9: the concrete authenticated state is logged out by a
credential-key deletion event. -/
theorem storage_deletion_logout_witness :
    handleStorageChange stAuth "admin_token" none [] [] =
        logoutEffect stAuth [] [] ∧
      (handleStorageChange stAuth "admin_token" none []
          []).1.isAuthenticated = false :=
  storage_deletion_logout stAuth [] [] rfl

/-- Claim C10: `clearError` dispatches `LOGIN_FAILURE` with the empty
message, so for every session state it clears identity and credential, sets
`isAuthenticated = false` and `loading = false`, leaves the stored error as
the empty message, and touches neither storage scope. -/
theorem clear_error_logs_out (st : AuthState) (ls ss : Store) :
    clearErrorStep st ls ss =
      ({ user := none, token := none, isAuthenticated := false,
         loading := false, error := some "" }, ls, ss) :=
  rfl
